import Mathlib

set_option maxRecDepth 4000

/-!
Verification of the ausdomainledger web API (api.go, current revision).

The service exposes a keyset-paginated search over a `domains` table and a
periodically refreshed stats endpoint, guarded by a per-IP token bucket.
This file embeds the `query`, `queryHandler`, `checkLimit`, `pollEtldCount`
and `statsHandler` logic, together with a model of the external store's
SQL semantics (LIKE matching, WHERE filtering, ORDER BY, LIMIT) and of the
external token-bucket throttler, and proves the specification's claims
about them.
-/

/-- A row of the `domains` table, as scanned into the Go struct
`queryResult` (fields Domain, ETLD, FirstSeen int64, LastSeen int64,
Id uint64). Timestamps are modelled as `Int`, the row id as `Nat`. -/
structure queryResult where
  domain : String
  etld : String
  first_seen : Int
  last_seen : Int
  id : Nat
deriving DecidableEq, Repr

/-- The Go struct `queryResponse`: the page of results plus the `last`
cursor value (a uint64, modelled as `Nat`). -/
structure queryResponse where
  results : List queryResult
  last : Nat
deriving DecidableEq, Repr

/-- The Go struct `statsResponse`. -/
structure statsResponse where
  domainCount : Int
  etldCount : Int
deriving DecidableEq, Repr

/-- Model of the external store: its rows, plus a failure oracle — when
`fail = some e`, any SELECT issued against the store fails with error
text `e` (modelling a failed `db.SelectContext` / `db.Get`). -/
structure DB where
  rows : List queryResult
  fail : Option String

/-- Model of the SQL LIKE operator used by the store's
`domain LIKE $1` predicate: `'%'` matches any (possibly empty) sequence
of characters, `'_'` matches exactly one character, anything else matches
literally. First argument is the pattern, second the subject string. -/
def likeMatch : List Char → List Char → Bool
  | [], s => s.isEmpty
  | '%' :: p, s => (List.range (s.length + 1)).any (fun k => likeMatch p (s.drop k))
  | '_' :: p, s => match s with | [] => false | _ :: s' => likeMatch p s'
  | a :: p, s => match s with | [] => false | c :: s' => (a == c) && likeMatch p s'

/-- Model of Go `strings.TrimSpace`: remove leading and trailing
whitespace. Query strings are modelled as character lists so that the
byte-level Go operations stay executable. -/
def trimSpace (s : List Char) : List Char :=
  ((s.dropWhile Char.isWhitespace).reverse.dropWhile Char.isWhitespace).reverse

/-- Model of Go `strings.ToLower`: case-fold every character. -/
def toLowerStr (s : List Char) : List Char :=
  s.map Char.toLower

/-- The WHERE clause of the cursor-free query:
`WHERE domain LIKE $1`. -/
def matchesAll (pattern : List Char) (r : queryResult) : Bool :=
  likeMatch pattern r.domain.data

/-- The WHERE clause of the `fromTime`-only query:
`WHERE domain LIKE $1 AND first_seen <= $2`. -/
def matchesFrom (pattern : List Char) (fromTime : Int) (r : queryResult) : Bool :=
  matchesAll pattern r && decide (r.first_seen ≤ fromTime)

/-- The WHERE clause of the full-cursor query:
`WHERE domain LIKE $1 AND first_seen <= $2 AND id < $4`. -/
def matchesFromLast (pattern : List Char) (fromTime lastId : Int) (r : queryResult) : Bool :=
  matchesFrom pattern fromTime r && decide ((r.id : Int) < lastId)

/-- The `ORDER BY first_seen DESC, last_seen DESC, id DESC` ordering used
by all three query shapes: `recGE a b` holds when row `a` may appear at
or before row `b` in the store's output. -/
def recGE (a b : queryResult) : Prop :=
  b.first_seen < a.first_seen ∨
    (a.first_seen = b.first_seen ∧
      (b.last_seen < a.last_seen ∨ (a.last_seen = b.last_seen ∧ b.id ≤ a.id)))

instance : DecidableRel recGE := fun a b => by
  unfold recGE; infer_instance

instance : IsTotal queryResult recGE :=
  ⟨fun a b => by unfold recGE; omega⟩

instance : IsTrans queryResult recGE :=
  ⟨fun a b c hab hbc => by unfold recGE at *; omega⟩

/-- The store sorts the matching rows by
`first_seen DESC, last_seen DESC, id DESC`. -/
def sortRows (l : List queryResult) : List queryResult :=
  List.insertionSort recGE l

/-- One SELECT against the store: filter by the WHERE clause, sort by the
ORDER BY clause, truncate to LIMIT. A negative LIMIT is an error in the
store's SQL dialect (PostgreSQL: `LIMIT must not be negative`), and the
failure oracle makes any SELECT fail. -/
def runSelect (db : DB) (cond : queryResult → Bool) (limit : Int) :
    Except String (List queryResult) :=
  match db.fail with
  | some e => .error e
  | none =>
    if limit < 0 then .error "LIMIT must not be negative"
    else .ok ((sortRows (db.rows.filter cond)).take limit.toNat)

/-- The three-way branch of `query` choosing the SQL statement from the
cursor parameters: both positive → full cursor; `lastId == 0` and
`fromTime > 0` → time bound only; otherwise no cursor constraint. -/
def selectFor (db : DB) (pattern : List Char) (fromTime lastId limit : Int) :
    Except String (List queryResult) :=
  if 0 < fromTime ∧ 0 < lastId then
    runSelect db (matchesFromLast pattern fromTime lastId) limit
  else if lastId = 0 ∧ 0 < fromTime then
    runSelect db (matchesFrom pattern fromTime) limit
  else
    runSelect db (matchesAll pattern) limit

/-- The clamp at the top of `query`:
`if limit == 0 || limit > 1000 { limit = 1000 }`. -/
def clampLimit (limit : Int) : Int :=
  if limit = 0 ∨ limit > 1000 then 1000 else limit

/-- The cursor accumulator at the end of `query`:
`lowestId := ^uint64(0); for _, v := range out { if v.Id < lowestId { lowestId = v.Id } }`. -/
def lowestId (out : List queryResult) : Nat :=
  out.foldl (fun acc v => if v.id < acc then v.id else acc) (2 ^ 64 - 1)

instance {α β : Type} [DecidableEq α] [DecidableEq β] : DecidableEq (Except α β)
  | .error a, .error b => decidable_of_iff (a = b) (by simp)
  | .error _, .ok _ => isFalse (by simp)
  | .ok _, .error _ => isFalse (by simp)
  | .ok a, .ok b => decidable_of_iff (a = b) (by simp)

/-- The result of `query` together with what it wrote to the process log
(`log.Printf`). -/
structure queryOutcome where
  resp : Except String queryResponse
  log : List String
deriving DecidableEq, Repr

/-- The part of `query` after validation: run the selected SQL statement;
on store error, log the real error and return the opaque
`"Query failed :("`; on success, fold the minimum id and return the
page with `last`. -/
def runQuery (db : DB) (pattern : List Char) (fromTime lastId limit : Int) :
    queryOutcome :=
  match selectFor db pattern fromTime lastId limit with
  | .error e => ⟨.error "Query failed :(", ["Query error: " ++ e]⟩
  | .ok out => ⟨.ok { results := out, last := lowestId out }, []⟩

/-- The Go function `query(ctx, qs, fromTime, lastId, limit)`: clamp the
limit, validate the raw filter length (> 255 → "Query too long",
< 3 → "Query must be at least 3 characters"), then normalize the filter
(`strings.ToLower(strings.TrimSpace(qs))`) and run the selected
statement. -/
def query (db : DB) (qs : List Char) (fromTime lastId limit : Int) :
    queryOutcome :=
  let limit := clampLimit limit
  if qs.length > 255 then ⟨.error "Query too long", []⟩
  else if qs.length < 3 then ⟨.error "Query must be at least 3 characters", []⟩
  else runQuery db (toLowerStr (trimSpace qs)) fromTime lastId limit

/-- The body of an HTTP response: a JSON-encoded query response, a
JSON-encoded stats response, or plain text (`http.Error`). -/
inductive Body
  | json (r : queryResponse)
  | stats (s : statsResponse)
  | text (s : String)
deriving DecidableEq, Repr

/-- An HTTP response: status code and body. -/
structure HttpResponse where
  status : Nat
  body : Body
deriving DecidableEq, Repr

/-- The Go handler `queryHandler`: call `query`; on error reply
`http.Error(w, err.Error(), 400)`, on success reply 200 with the JSON
encoding. The second component is what was logged. -/
def queryHandler (db : DB) (qs : List Char) (fromTime lastId limit : Int) :
    HttpResponse × List String :=
  match query db qs fromTime lastId limit with
  | ⟨.error e, lg⟩ => (⟨400, .text e⟩, lg)
  | ⟨.ok r, lg⟩ => (⟨200, .json r⟩, lg)

/-- The process-wide stats globals `etldCount` and `domainCount`, written
by the background task `pollEtldCount` and read by `statsHandler`. -/
structure SharedStats where
  etldCount : Int
  domainCount : Int
deriving DecidableEq, Repr

/-- First half of one `pollEtldCount` tick: `db.Get(&etldCount, "SELECT
COUNT(*) FROM (SELECT DISTINCT etld FROM domains) AS temp;")`. On error
the destination is left untouched and the error is logged; on success
only the `etldCount` field is assigned. -/
def pollStep1 (s : SharedStats) (etldRes : Except String Int) :
    SharedStats × List String :=
  match etldRes with
  | .error e => (s, ["Failed to get etld count: " ++ e])
  | .ok v => ({ s with etldCount := v }, [])

/-- Second half of one `pollEtldCount` tick: `db.Get(&domainCount,
"SELECT COUNT(*) FROM domains")`, with the same error handling. -/
def pollStep2 (s : SharedStats) (domainRes : Except String Int) :
    SharedStats × List String :=
  match domainRes with
  | .error e => (s, ["Failed to get domain count: " ++ e])
  | .ok v => ({ s with domainCount := v }, [])

/-- One full tick of the `pollEtldCount` loop: the two store reads run in
sequence, each assigning its own global on success and only logging on
failure; the loop then sleeps and continues. The tick is a total
function: no store failure aborts the loop. -/
def pollTick (s : SharedStats) (etldRes domainRes : Except String Int) :
    SharedStats × List String :=
  let (s1, log1) := pollStep1 s etldRes
  let (s2, log2) := pollStep2 s1 domainRes
  (s2, log1 ++ log2)

/-- The Go handler `statsHandler`: reads the two shared globals and
encodes them as JSON with status 200. -/
def statsHandler (s : SharedStats) : HttpResponse :=
  ⟨200, .stats { domainCount := s.domainCount, etldCount := s.etldCount }⟩

/-- Modelled from the spec: the per-IP token-bucket state of the external
`tb.Throttler` (the library itself is not part of this repository). Each
entry is `(ip, tokens, lastUpdate)`; a bucket is created lazily, full, on
the first request from an IP. Time is in whole seconds. -/
structure ThrottlerState where
  buckets : List (String × Nat × Nat)
deriving DecidableEq, Repr

/-- Modelled from the spec: bucket capacity is 5 tokens. -/
def bucketCapacity : Nat := 5

/-- Modelled from the spec: tokens available for `ip` at time `now` —
a fresh bucket is full; an existing bucket refills at 1 token per second
since its last update, capped at the capacity. -/
def tokensAt (st : ThrottlerState) (ip : String) (now : Nat) : Nat :=
  match st.buckets.find? (fun e => e.1 == ip) with
  | none => bucketCapacity
  | some (_, tok, t) => min bucketCapacity (tok + (now - t))

/-- Modelled from the spec: `throttler.Halt(ip, 1, 5)` — atomically check
the bucket for `ip`; with at least 1 token available the request is
admitted and 1 token is deducted (returns `false`), otherwise it is
halted (returns `true`). -/
def halt (st : ThrottlerState) (ip : String) (now : Nat) :
    Bool × ThrottlerState :=
  let tok := tokensAt st ip now
  if 1 ≤ tok then (false, ⟨(ip, tok - 1, now) :: st.buckets⟩)
  else (true, ⟨(ip, tok, now) :: st.buckets⟩)

/-- The Go middleware `checkLimit`: when the global bypass flag is set the
request is passed through untouched; otherwise `throttler.Halt(ip, 1, 5)`
decides, and a halted request is answered with
`http.Error(w, "Throttled", 429)`. `next` is the downstream handler's
response. -/
def checkLimit (disabled : Bool) (st : ThrottlerState) (ip : String)
    (now : Nat) (next : HttpResponse) : HttpResponse × ThrottlerState :=
  if disabled then (next, st)
  else
    match halt st ip now with
    | (true, st') => (⟨429, .text "Throttled"⟩, st')
    | (false, st') => (next, st')

/-- Run a sequence of requests (each an `(ip, time)` pair) through
`checkLimit`, collecting the responses. -/
def runRequests (disabled : Bool) (st : ThrottlerState)
    (reqs : List (String × Nat)) (next : HttpResponse) :
    List HttpResponse × ThrottlerState :=
  match reqs with
  | [] => ([], st)
  | (ip, t) :: rest =>
    let (resp, st') := checkLimit disabled st ip t next
    let (resps, st'') := runRequests disabled st' rest next
    (resp :: resps, st'')

/-- **C3** (counterexample): the filter `"  a  "` has raw length 5 (so it
passes the code's validation) but normalized length 1 < 3, and `query`
does not fail with an invalid-query error — it runs the store query and
succeeds. This refutes the claim that validation fails exactly when the
normalized length is < 3. -/
theorem c3_counterexample :
    (toLowerStr (trimSpace "  a  ".data)).length < 3 ∧
    query ⟨[], none⟩ "  a  ".data 0 0 10 = ⟨.ok ⟨[], 2 ^ 64 - 1⟩, []⟩ :=
  ⟨by decide, by decide⟩

/-- **C3** (amended): `query` validates the raw filter length before any
normalization: it fails with "Query too long" exactly when the raw length
is > 255 and with "Query must be at least 3 characters" exactly when the
raw length is < 3 (in both cases the result does not depend on the store
and nothing is logged, so no store query is issued); for raw length in
[3,255] validation passes, the filter is trimmed and case-folded before
matching, and the only possible error is the opaque store-failure
message. -/
theorem c3_validation_raw_length (db : DB) (qs : List Char) (ft li lim : Int) :
    (255 < qs.length → query db qs ft li lim = ⟨.error "Query too long", []⟩) ∧
    (qs.length ≤ 255 → qs.length < 3 →
      query db qs ft li lim = ⟨.error "Query must be at least 3 characters", []⟩) ∧
    (3 ≤ qs.length → qs.length ≤ 255 →
      query db qs ft li lim =
        runQuery db (toLowerStr (trimSpace qs)) ft li (clampLimit lim) ∧
      ∀ e, (query db qs ft li lim).resp = .error e → e = "Query failed :(") := by
  refine ⟨fun h => ?_, fun h1 h2 => ?_, fun h1 h2 => ?_⟩
  · unfold query; rw [if_pos (by omega)]
  · unfold query; rw [if_neg (by omega), if_pos (by omega)]
  · have hq : query db qs ft li lim =
        runQuery db (toLowerStr (trimSpace qs)) ft li (clampLimit lim) := by
      unfold query; rw [if_neg (by omega), if_neg (by omega)]
    refine ⟨hq, fun e he => ?_⟩
    rw [hq] at he
    unfold runQuery at he
    cases hsel : selectFor db (toLowerStr (trimSpace qs)) ft li (clampLimit lim) with
    | error e' => rw [hsel] at he; simpa using he.symm
    | ok out => rw [hsel] at he; simp at he

/-- Witness for C3 (amended): the three validation regimes at concrete
inputs. -/
theorem c3_validation_raw_length_witness :
    query ⟨[], none⟩ (List.replicate 256 'a') 0 0 10 = ⟨.error "Query too long", []⟩ ∧
    query ⟨[], none⟩ "ab".data 0 0 10 =
      ⟨.error "Query must be at least 3 characters", []⟩ ∧
    query ⟨[], none⟩ "abc".data 0 0 10 =
      runQuery ⟨[], none⟩ (toLowerStr (trimSpace "abc".data)) 0 0 (clampLimit 10) :=
  ⟨(c3_validation_raw_length ⟨[], none⟩ (List.replicate 256 'a') 0 0 10).1 (by decide),
   (c3_validation_raw_length ⟨[], none⟩ "ab".data 0 0 10).2.1 (by decide) (by decide),
   ((c3_validation_raw_length ⟨[], none⟩ "abc".data 0 0 10).2.2 (by decide) (by decide)).1⟩

/-- **C4** (counterexample): a supplied page size of −1 is not clamped —
the clamp at the top of `query` only fires for `limit == 0 || limit >
1000`, so the effective limit passed to the store is −1, not 1000. -/
theorem c4_counterexample :
    clampLimit (-1) = -1 ∧ ((-1 : Int) = 1000 → False) :=
  ⟨by decide, by decide⟩

/-- **C4** (amended): the effective limit is 1000 exactly when the
supplied size is 0 or greater than 1000; sizes in [1,1000] are used
unchanged; negative sizes are passed through unclamped (they are not
rejected by `query` itself — they reach the store). -/
theorem c4_limit_clamp (limit : Int) :
    (limit = 0 ∨ 1000 < limit → clampLimit limit = 1000) ∧
    (1 ≤ limit → limit ≤ 1000 → clampLimit limit = limit) ∧
    (limit < 0 → clampLimit limit = limit) := by
  unfold clampLimit
  exact ⟨fun h => if_pos h, fun h1 h2 => if_neg (by omega), fun h => if_neg (by omega)⟩

/-- Witness for C4 (amended): the clamp at concrete sizes 2000, 7, −5. -/
theorem c4_limit_clamp_witness :
    clampLimit 2000 = 1000 ∧ clampLimit 7 = 7 ∧ clampLimit (-5) = -5 :=
  ⟨(c4_limit_clamp 2000).1 (by decide),
   (c4_limit_clamp 7).2.1 (by decide) (by decide),
   (c4_limit_clamp (-5)).2.2 (by decide)⟩

/-- **C6**: when the underlying store read fails with any error `e`, the
caller receives HTTP 400 with the fixed opaque body "Query failed :(" —
independent of `e`, so the store error text never reaches the client —
while the real error is written to the internal log. -/
theorem c6_opaque_store_error (rows : List queryResult) (e : String)
    (qs : List Char) (ft li lim : Int)
    (h3 : 3 ≤ qs.length) (h255 : qs.length ≤ 255) :
    queryHandler ⟨rows, some e⟩ qs ft li lim =
      (⟨400, .text "Query failed :("⟩, ["Query error: " ++ e]) := by
  unfold queryHandler query runQuery selectFor runSelect
  rw [if_neg (by omega), if_neg (by omega)]
  split_ifs <;> rfl

/-- Witness for C6: a concrete failing store. -/
theorem c6_opaque_store_error_witness :
    queryHandler ⟨[], some "connection refused"⟩ "abc".data 0 0 10 =
      (⟨400, .text "Query failed :("⟩, ["Query error: connection refused"]) :=
  c6_opaque_store_error [] "connection refused" "abc".data 0 0 10 (by decide) (by decide)

/-- **C7**: when both refresh queries of a `pollEtldCount` tick fail, the
whole snapshot is retained unchanged, the stats endpoint keeps returning
the previous values, and the two errors are only logged; moreover each
individually failing query leaves its own counter untouched. The tick is
a total function, so a failed refresh never aborts the loop. -/
theorem c7_stats_retention (s : SharedStats) (e1 e2 : String) :
    pollTick s (.error e1) (.error e2) =
      (s, ["Failed to get etld count: " ++ e1, "Failed to get domain count: " ++ e2]) ∧
    statsHandler (pollTick s (.error e1) (.error e2)).1 = statsHandler s ∧
    (pollStep1 s (.error e1)).1.etldCount = s.etldCount ∧
    (pollStep2 s (.error e2)).1.domainCount = s.domainCount :=
  ⟨rfl, rfl, rfl, rfl⟩

/-- **C9** (counterexample): a reader that runs between the two
assignments of one refresh tick (etld count written, domain count not
yet) observes `{domains = 10, etlds = 2}` — which is neither the
pre-tick snapshot `{10, 1}` nor the post-tick snapshot `{20, 2}`: a
partially updated snapshot is observable, refuting wholesale
replacement. -/
theorem c9_counterexample :
    statsHandler (pollStep1 ⟨1, 10⟩ (.ok 2)).1 =
      ⟨200, .stats { domainCount := 10, etldCount := 2 }⟩ ∧
    statsHandler ⟨1, 10⟩ = ⟨200, .stats { domainCount := 10, etldCount := 1 }⟩ ∧
    statsHandler (pollTick ⟨1, 10⟩ (.ok 2) (.ok 20)).1 =
      ⟨200, .stats { domainCount := 20, etldCount := 2 }⟩ ∧
    (⟨200, .stats { domainCount := 10, etldCount := 2 }⟩ : HttpResponse) ≠
      ⟨200, .stats { domainCount := 10, etldCount := 1 }⟩ ∧
    (⟨200, .stats { domainCount := 10, etldCount := 2 }⟩ : HttpResponse) ≠
      ⟨200, .stats { domainCount := 20, etldCount := 2 }⟩ := by
  refine ⟨rfl, rfl, rfl, by decide, by decide⟩

/-- **C9** (amended): the snapshot is updated field by field — the tick
first assigns the eTLD count, then the domain count — so a reader
scheduled between the two assignments observes the new eTLD count paired
with the old domain count. -/
theorem c9_partial_snapshot (s : SharedStats) (e d : Int) :
    statsHandler (pollStep1 s (.ok e)).1 =
      ⟨200, .stats { domainCount := s.domainCount, etldCount := e }⟩ ∧
    (pollTick s (.ok e) (.ok d)).1 = ⟨e, d⟩ :=
  ⟨rfl, rfl⟩

/-- **C10**: when validation passes and the store query returns zero
rows, `query` succeeds and the returned cursor `last` is 2^64 − 1 (the
all-ones initial value of the minimum-id accumulator, never lowered). -/
theorem c10_empty_page_last (db : DB) (qs : List Char) (ft li lim : Int)
    (h3 : 3 ≤ qs.length) (h255 : qs.length ≤ 255)
    (hsel : selectFor db (toLowerStr (trimSpace qs)) ft li (clampLimit lim) = .ok []) :
    query db qs ft li lim = ⟨.ok ⟨[], 2 ^ 64 - 1⟩, []⟩ := by
  unfold query runQuery
  rw [if_neg (by omega), if_neg (by omega), hsel]
  rfl

/-- Witness for C10: an empty store. -/
theorem c10_empty_page_last_witness :
    query ⟨[], none⟩ "abc".data 0 0 10 = ⟨.ok ⟨[], 2 ^ 64 - 1⟩, []⟩ :=
  c10_empty_page_last ⟨[], none⟩ "abc".data 0 0 10 (by decide) (by decide) (by decide)

lemma runRequests_cons (st : ThrottlerState) (ip : String) (t : Nat)
    (rest : List (String × Nat)) (next : HttpResponse) :
    runRequests false st ((ip, t) :: rest) next =
      ((checkLimit false st ip t next).1 ::
        (runRequests false (checkLimit false st ip t next).2 rest next).1,
       (runRequests false (checkLimit false st ip t next).2 rest next).2) := by
  simp [runRequests]

lemma checkLimit_admit {st st' : ThrottlerState} {ip : String} {t : Nat}
    (next : HttpResponse) (h : halt st ip t = (false, st')) :
    checkLimit false st ip t next = (next, st') := by
  simp [checkLimit, h]

lemma checkLimit_throttle {st st' : ThrottlerState} {ip : String} {t : Nat}
    (next : HttpResponse) (h : halt st ip t = (true, st')) :
    checkLimit false st ip t next = (⟨429, .text "Throttled"⟩, st') := by
  simp [checkLimit, h]

/-- **C5**: with the modelled bucket (capacity 5, cost 1, refill 1
token/second): from a fresh state, 5 rapid requests from one IP are
admitted and the 6th in the same second is answered 429 "Throttled";
after waiting at least 1 second the next request is admitted, and at the
minimal wait of exactly 1 second exactly one request is admitted (a
second one in the same second is throttled again); with the bypass flag
set, `checkLimit` never throttles any request. -/
theorem c5_admission_control (ip : String) (t : Nat) (next : HttpResponse) :
    (runRequests false ⟨[]⟩ [(ip, t), (ip, t), (ip, t), (ip, t), (ip, t), (ip, t)] next).1 =
      [next, next, next, next, next, ⟨429, .text "Throttled"⟩] ∧
    (∀ w, 1 ≤ w →
      (checkLimit false
        (runRequests false ⟨[]⟩ [(ip, t), (ip, t), (ip, t), (ip, t), (ip, t), (ip, t)] next).2
        ip (t + w) next).1 = next) ∧
    (runRequests false
        (runRequests false ⟨[]⟩ [(ip, t), (ip, t), (ip, t), (ip, t), (ip, t), (ip, t)] next).2
        [(ip, t + 1), (ip, t + 1)] next).1 = [next, ⟨429, .text "Throttled"⟩] ∧
    (∀ (st : ThrottlerState) (ip2 : String) (now : Nat),
      checkLimit true st ip2 now next = (next, st)) := by
  have h1 : halt ⟨[]⟩ ip t = (false, ⟨[(ip, 4, t)]⟩) := by
    simp [halt, tokensAt, bucketCapacity]
  have h2 : halt ⟨[(ip, 4, t)]⟩ ip t = (false, ⟨[(ip, 3, t), (ip, 4, t)]⟩) := by
    simp [halt, tokensAt, bucketCapacity, List.find?]
  have h3 : halt ⟨[(ip, 3, t), (ip, 4, t)]⟩ ip t =
      (false, ⟨[(ip, 2, t), (ip, 3, t), (ip, 4, t)]⟩) := by
    simp [halt, tokensAt, bucketCapacity, List.find?]
  have h4 : halt ⟨[(ip, 2, t), (ip, 3, t), (ip, 4, t)]⟩ ip t =
      (false, ⟨[(ip, 1, t), (ip, 2, t), (ip, 3, t), (ip, 4, t)]⟩) := by
    simp [halt, tokensAt, bucketCapacity, List.find?]
  have h5 : halt ⟨[(ip, 1, t), (ip, 2, t), (ip, 3, t), (ip, 4, t)]⟩ ip t =
      (false, ⟨[(ip, 0, t), (ip, 1, t), (ip, 2, t), (ip, 3, t), (ip, 4, t)]⟩) := by
    simp [halt, tokensAt, bucketCapacity, List.find?]
  have h6 : halt ⟨[(ip, 0, t), (ip, 1, t), (ip, 2, t), (ip, 3, t), (ip, 4, t)]⟩ ip t =
      (true, ⟨[(ip, 0, t), (ip, 0, t), (ip, 1, t), (ip, 2, t), (ip, 3, t), (ip, 4, t)]⟩) := by
    simp [halt, tokensAt, bucketCapacity, List.find?]
  have hburst : runRequests false ⟨[]⟩
      [(ip, t), (ip, t), (ip, t), (ip, t), (ip, t), (ip, t)] next =
      ([next, next, next, next, next, ⟨429, .text "Throttled"⟩],
       ⟨[(ip, 0, t), (ip, 0, t), (ip, 1, t), (ip, 2, t), (ip, 3, t), (ip, 4, t)]⟩) := by
    rw [runRequests_cons, checkLimit_admit next h1,
        runRequests_cons, checkLimit_admit next h2,
        runRequests_cons, checkLimit_admit next h3,
        runRequests_cons, checkLimit_admit next h4,
        runRequests_cons, checkLimit_admit next h5,
        runRequests_cons, checkLimit_throttle next h6]
    rfl
  refine ⟨by rw [hburst], fun w hw => ?_, ?_, fun st ip2 now => rfl⟩
  · rw [hburst]
    have htok : tokensAt
        ⟨[(ip, 0, t), (ip, 0, t), (ip, 1, t), (ip, 2, t), (ip, 3, t), (ip, 4, t)]⟩
        ip (t + w) = min 5 w := by
      simp [tokensAt, bucketCapacity, List.find?]
    simp [checkLimit, halt, htok, hw]
  · rw [hburst]
    have h7 : halt ⟨[(ip, 0, t), (ip, 0, t), (ip, 1, t), (ip, 2, t), (ip, 3, t), (ip, 4, t)]⟩
        ip (t + 1) =
        (false, ⟨[(ip, 0, t + 1), (ip, 0, t), (ip, 0, t), (ip, 1, t), (ip, 2, t),
                  (ip, 3, t), (ip, 4, t)]⟩) := by
      simp [halt, tokensAt, bucketCapacity, List.find?]
    have h8 : halt ⟨[(ip, 0, t + 1), (ip, 0, t), (ip, 0, t), (ip, 1, t), (ip, 2, t),
                  (ip, 3, t), (ip, 4, t)]⟩ ip (t + 1) =
        (true, ⟨[(ip, 0, t + 1), (ip, 0, t + 1), (ip, 0, t), (ip, 0, t), (ip, 1, t),
                  (ip, 2, t), (ip, 3, t), (ip, 4, t)]⟩) := by
      simp [halt, tokensAt, bucketCapacity, List.find?]
    rw [runRequests_cons, checkLimit_admit next h7,
        runRequests_cons, checkLimit_throttle next h8]
    rfl

/-- Witness for C5: the post-wait admission at `w = 1`. -/
theorem c5_admission_control_witness :
    (checkLimit false
      (runRequests false ⟨[]⟩
        [("203.0.113.9", 0), ("203.0.113.9", 0), ("203.0.113.9", 0),
         ("203.0.113.9", 0), ("203.0.113.9", 0), ("203.0.113.9", 0)] ⟨200, .text "ok"⟩).2
      "203.0.113.9" (0 + 1) ⟨200, .text "ok"⟩).1 = ⟨200, .text "ok"⟩ :=
  (c5_admission_control "203.0.113.9" 0 ⟨200, .text "ok"⟩).2.1 1 (by decide)

/-- The store of the end-to-end example of C8 (lastSeen taken equal to
firstSeen, which the example leaves unspecified). -/
def exampleDB : DB :=
  ⟨[⟨"a.com.au", "com.au", 100, 100, 1⟩,
    ⟨"b.com.au", "com.au", 200, 200, 2⟩,
    ⟨"a.net.au", "net.au", 200, 200, 3⟩], none⟩

/-- **C8** (counterexample): the example's filter `"a."` has raw length
2 < 3, so the query is rejected with the invalid-query error instead of
returning the claimed page; moreover `"a."` as a LIKE pattern would not
even substring-match `"a.com.au"` (it has no wildcards). -/
theorem c8_counterexample :
    query exampleDB "a.".data 0 0 10 =
      ⟨.error "Query must be at least 3 characters", []⟩ ∧
    likeMatch "a.".data "a.com.au".data = false :=
  ⟨by decide, by decide⟩

/-- **C8** (amended): on the example store, the substring filter must be
written with LIKE wildcards and be at least 3 characters long: the query
with filter `"%a.%"`, no cursor and limit 10 returns the page
[a.net.au (id 3), a.com.au (id 1)] ordered by firstSeen descending then
id descending, with `last = 1`. -/
theorem c8_end_to_end :
    query exampleDB "%a.%".data 0 0 10 =
      ⟨.ok ⟨[⟨"a.net.au", "net.au", 200, 200, 3⟩,
             ⟨"a.com.au", "com.au", 100, 100, 1⟩], 1⟩, []⟩ := by
  decide

/-- Inverting a successful `runSelect`: the page is the filtered, sorted,
truncated row list. -/
lemma runSelect_ok {db : DB} {cond : queryResult → Bool} {lim : Int}
    {out : List queryResult} (h : runSelect db cond lim = .ok out) :
    out = (sortRows (db.rows.filter cond)).take lim.toNat := by
  unfold runSelect at h
  cases hf : db.fail with
  | some e => rw [hf] at h; simp at h
  | none =>
    rw [hf] at h
    simp only [] at h
    split_ifs at h with hl
    simp only [Except.ok.injEq] at h
    exact h.symm

/-- A successful `selectFor` came from one of the three SELECT shapes. -/
lemma selectFor_ok_run {db : DB} {pat : List Char} {ft li lim : Int}
    {out : List queryResult} (h : selectFor db pat ft li lim = .ok out) :
    ∃ cond, runSelect db cond lim = .ok out := by
  unfold selectFor at h
  split_ifs at h <;> exact ⟨_, h⟩

/-- Inverting a successful `query`: the SELECT chosen for the normalized
filter and clamped limit succeeded with exactly the response's page, and
`last` is the folded minimum id of that page. -/
lemma query_ok_select {db : DB} {qs : List Char} {ft li lim : Int}
    {resp : queryResponse} (h : (query db qs ft li lim).resp = .ok resp) :
    selectFor db (toLowerStr (trimSpace qs)) ft li (clampLimit lim) = .ok resp.results ∧
    resp.last = lowestId resp.results := by
  unfold query at h
  split_ifs at h with h1 h2
  unfold runQuery at h
  simp only [] at h
  cases hsel : selectFor db (toLowerStr (trimSpace qs)) ft li (clampLimit lim) with
  | error e => rw [hsel] at h; simp at h
  | ok out =>
    rw [hsel] at h
    have hresp : Except.ok { results := out, last := lowestId out } = Except.ok resp := h
    have := Except.ok.inj hresp
    subst this
    exact ⟨rfl, rfl⟩

/-- Every row of a successful SELECT's page comes from the store and
satisfies the WHERE clause. -/
lemma mem_runSelect_ok {db : DB} {cond : queryResult → Bool} {lim : Int}
    {out : List queryResult} (h : runSelect db cond lim = .ok out)
    {r : queryResult} (hr : r ∈ out) : r ∈ db.rows ∧ cond r = true := by
  rw [runSelect_ok h] at hr
  have h1 : r ∈ sortRows (db.rows.filter cond) := List.take_subset _ _ hr
  unfold sortRows at h1
  have h2 : r ∈ db.rows.filter cond :=
    (List.perm_insertionSort recGE _).mem_iff.mp h1
  exact ⟨List.mem_of_mem_filter h2, List.of_mem_filter h2⟩

lemma foldMin_le_init (l : List queryResult) (acc : Nat) :
    l.foldl (fun acc v => if v.id < acc then v.id else acc) acc ≤ acc := by
  induction l generalizing acc with
  | nil => simp
  | cons v l ih =>
    simp only [List.foldl_cons]
    refine le_trans (ih _) ?_
    split_ifs with h <;> omega

lemma foldMin_le_mem {l : List queryResult} {r : queryResult} (hr : r ∈ l) (acc : Nat) :
    l.foldl (fun acc v => if v.id < acc then v.id else acc) acc ≤ r.id := by
  induction l generalizing acc with
  | nil => cases hr
  | cons v l ih =>
    rcases List.mem_cons.mp hr with rfl | hr'
    · simp only [List.foldl_cons]
      refine le_trans (foldMin_le_init _ _) ?_
      split_ifs with h <;> omega
    · exact ih hr' _

lemma foldMin_mem (l : List queryResult) (acc : Nat) :
    l.foldl (fun acc v => if v.id < acc then v.id else acc) acc = acc ∨
      ∃ r ∈ l, l.foldl (fun acc v => if v.id < acc then v.id else acc) acc = r.id := by
  induction l generalizing acc with
  | nil => exact Or.inl rfl
  | cons v l ih =>
    simp only [List.foldl_cons]
    by_cases hv : v.id < acc
    · rw [if_pos hv]
      rcases ih v.id with h | ⟨r, hr, he⟩
      · exact Or.inr ⟨v, List.mem_cons_self v l, h⟩
      · exact Or.inr ⟨r, List.mem_cons_of_mem _ hr, he⟩
    · rw [if_neg hv]
      rcases ih acc with h | ⟨r, hr, he⟩
      · exact Or.inl h
      · exact Or.inr ⟨r, List.mem_cons_of_mem _ hr, he⟩

/-- For a nonempty page of uint64 ids, the folded `lowestId` is attained
by some member and bounds every member from below. -/
lemma lowestId_spec {out : List queryResult} (hne : out ≠ [])
    (hids : ∀ r ∈ out, r.id < 2 ^ 64) :
    (∃ r ∈ out, r.id = lowestId out) ∧ ∀ r ∈ out, lowestId out ≤ r.id := by
  have hle : ∀ r ∈ out, lowestId out ≤ r.id := fun r hr => foldMin_le_mem hr _
  refine ⟨?_, hle⟩
  rcases foldMin_mem out (2 ^ 64 - 1) with h | ⟨r, hr, he⟩
  · obtain ⟨r, hr⟩ := List.exists_mem_of_ne_nil out hne
    have h1 := hle r hr
    have h2 := hids r hr
    have h3 : lowestId out = 2 ^ 64 - 1 := h
    exact ⟨r, hr, by omega⟩
  · exact ⟨r, hr, he.symm⟩

/-- **C1**: for every successful query whose page is nonempty (over a
store of uint64 ids), the returned `last` equals the minimum id of the
page; and a follow-up query issued with that `last` as `lastId` and the
minimal record's `firstSeen` as `fromTime` (both positive, i.e. present
as cursor values) never returns a record with `id ≥ last` — against any
store state. -/
theorem c1_cursor_continuity (db db2 : DB) (qs qs2 : List Char)
    (ft li lim lim2 : Int) (resp resp2 : queryResponse)
    (hids : ∀ r ∈ db.rows, r.id < 2 ^ 64)
    (h : (query db qs ft li lim).resp = .ok resp)
    (hne : resp.results ≠ []) :
    ((∃ r ∈ resp.results, r.id = resp.last) ∧
      ∀ r ∈ resp.results, resp.last ≤ r.id) ∧
    ∀ r0 ∈ resp.results, r0.id = resp.last →
      0 < r0.first_seen → 0 < (resp.last : Int) →
      (query db2 qs2 r0.first_seen (resp.last : Int) lim2).resp = .ok resp2 →
      ∀ r ∈ resp2.results, r.id < resp.last := by
  obtain ⟨hsel, hlast⟩ := query_ok_select h
  obtain ⟨cond, hrun⟩ := selectFor_ok_run hsel
  have hmem : ∀ r ∈ resp.results, r ∈ db.rows := fun r hr => (mem_runSelect_ok hrun hr).1
  have hids' : ∀ r ∈ resp.results, r.id < 2 ^ 64 := fun r hr => hids r (hmem r hr)
  have hspec := lowestId_spec hne hids'
  rw [← hlast] at hspec
  refine ⟨hspec, fun r0 hr0 hid0 hft hpos h2 r hr => ?_⟩
  obtain ⟨hsel2, _⟩ := query_ok_select h2
  have hbranch : selectFor db2 (toLowerStr (trimSpace qs2)) r0.first_seen
      (resp.last : Int) (clampLimit lim2) =
      runSelect db2
        (matchesFromLast (toLowerStr (trimSpace qs2)) r0.first_seen (resp.last : Int))
        (clampLimit lim2) := by
    unfold selectFor
    rw [if_pos ⟨hft, hpos⟩]
  rw [hbranch] at hsel2
  have hc := (mem_runSelect_ok hsel2 hr).2
  unfold matchesFromLast at hc
  simp only [Bool.and_eq_true, decide_eq_true_eq] at hc
  exact_mod_cast hc.2

/-- Witness for C1: a two-row store queried with filter "abc"; the page
is [id 2, id 1] and `last = 1` is its minimum id. -/
theorem c1_cursor_continuity_witness :
    (∃ r ∈ [(⟨"abc", "x", 200, 200, 2⟩ : queryResult), ⟨"abc", "x", 100, 100, 1⟩],
        r.id = 1) ∧
    ∀ r ∈ [(⟨"abc", "x", 200, 200, 2⟩ : queryResult), ⟨"abc", "x", 100, 100, 1⟩],
        1 ≤ r.id :=
  (c1_cursor_continuity
    ⟨[⟨"abc", "x", 100, 100, 1⟩, ⟨"abc", "x", 200, 200, 2⟩], none⟩
    ⟨[⟨"abc", "x", 100, 100, 1⟩, ⟨"abc", "x", 200, 200, 2⟩], none⟩
    "abc".data "abc".data 0 0 10 10
    ⟨[⟨"abc", "x", 200, 200, 2⟩, ⟨"abc", "x", 100, 100, 1⟩], 1⟩
    ⟨[], 2 ^ 64 - 1⟩
    (by decide) (by decide) (by decide)).1

lemma pairwise_and {α : Type} {R S : α → α → Prop} :
    ∀ {l : List α}, l.Pairwise R → l.Pairwise S →
      l.Pairwise fun a b => R a b ∧ S a b
  | [], _, _ => List.Pairwise.nil
  | _ :: _, .cons hR hRl, .cons hS hSl =>
    .cons (fun b hb => ⟨hR b hb, hS b hb⟩) (pairwise_and hRl hSl)

/-- The page of a successful SELECT is sorted by the ORDER BY
relation. -/
lemma sorted_runSelect_ok {db : DB} {cond : queryResult → Bool} {lim : Int}
    {out : List queryResult} (h : runSelect db cond lim = .ok out) :
    out.Pairwise recGE := by
  rw [runSelect_ok h]
  have hs : (sortRows (db.rows.filter cond)).Pairwise recGE :=
    List.sorted_insertionSort recGE _
  exact hs.sublist (List.take_sublist _ _)

/-- Row ids of a successful SELECT's page are pairwise distinct whenever
the store's ids are. -/
lemma nodup_ids_runSelect_ok {db : DB} {cond : queryResult → Bool} {lim : Int}
    {out : List queryResult} (h : runSelect db cond lim = .ok out)
    (hnd : (db.rows.map (fun r => r.id)).Nodup) :
    (out.map (fun r => r.id)).Nodup := by
  rw [runSelect_ok h]
  have h1 : List.Sublist ((db.rows.filter cond).map (fun r => r.id))
      (db.rows.map (fun r => r.id)) :=
    (List.filter_sublist _).map _
  have h2 : ((db.rows.filter cond).map (fun r => r.id)).Nodup := hnd.sublist h1
  have hp : List.Perm ((sortRows (db.rows.filter cond)).map (fun r => r.id))
      ((db.rows.filter cond).map (fun r => r.id)) :=
    (List.perm_insertionSort recGE _).map _
  have h3 : ((sortRows (db.rows.filter cond)).map (fun r => r.id)).Nodup :=
    hp.nodup_iff.mpr h2
  exact h3.sublist ((List.take_sublist _ _).map _)

/-- **C2**: over a store with pairwise-distinct row ids, every page
returned by a successful query is strictly descending in the
lexicographic order on (firstSeen, lastSeen, id): for any record A
preceding B, either A.firstSeen > B.firstSeen, or firstSeen ties and
A.lastSeen > B.lastSeen, or both tie and A.id > B.id. -/
theorem c2_result_ordering (db : DB) (qs : List Char) (ft li lim : Int)
    (resp : queryResponse)
    (hnd : (db.rows.map (fun r => r.id)).Nodup)
    (h : (query db qs ft li lim).resp = .ok resp) :
    resp.results.Pairwise fun a b =>
      b.first_seen < a.first_seen ∨
      (a.first_seen = b.first_seen ∧ b.last_seen < a.last_seen) ∨
      (a.first_seen = b.first_seen ∧ a.last_seen = b.last_seen ∧ b.id < a.id) := by
  obtain ⟨hsel, _⟩ := query_ok_select h
  obtain ⟨cond, hrun⟩ := selectFor_ok_run hsel
  have hsorted := sorted_runSelect_ok hrun
  have hnodup := nodup_ids_runSelect_ok hrun hnd
  have hnd2 : (resp.results.map (fun r => r.id)).Pairwise (fun a b => a ≠ b) := hnodup
  have hne : resp.results.Pairwise fun a b => a.id ≠ b.id := List.pairwise_map.mp hnd2
  have hcomb := pairwise_and hsorted hne
  refine hcomb.imp ?_
  rintro a b ⟨hge, hneq⟩
  unfold recGE at hge
  omega

/-- Witness for C2: two rows with identical timestamps are returned in
strictly descending id order. -/
theorem c2_result_ordering_witness :
    List.Pairwise
      (fun a b : queryResult =>
        b.first_seen < a.first_seen ∨
        (a.first_seen = b.first_seen ∧ b.last_seen < a.last_seen) ∨
        (a.first_seen = b.first_seen ∧ a.last_seen = b.last_seen ∧ b.id < a.id))
      [⟨"abc", "x", 1, 1, 2⟩, ⟨"abc", "x", 1, 1, 1⟩] :=
  c2_result_ordering
    ⟨[⟨"abc", "x", 1, 1, 1⟩, ⟨"abc", "x", 1, 1, 2⟩], none⟩
    "abc".data 0 0 10
    ⟨[⟨"abc", "x", 1, 1, 2⟩, ⟨"abc", "x", 1, 1, 1⟩], 1⟩
    (by decide) (by decide)
